import Mathlib

/-!
Shallow embedding of src/utils/radix_calc/radix_calculator.py.

Python integers are unbounded and signed, so they are modelled as Int.
Python floor division a // b floors toward negative infinity and raises
ZeroDivisionError when b = 0; it is modelled as an Option-valued operation
returning none exactly in the error case, and Int.fdiv (flooring division)
otherwise.  A run of the program aborts at the first raised exception, which
the enumerator models by sequencing the Option-valued row computations.
-/

/-- Python floor division a // b: Int.fdiv (floor toward negative infinity)
when b is nonzero, none (ZeroDivisionError) when b = 0. -/
def pyFloorDiv (a b : Int) : Option Int :=
  if b = 0 then none else some (Int.fdiv a b)

/-- calculate_radix(spine_ports, leaf_uplink_ports) from the source:
returns spine_ports // leaf_uplink_ports. -/
def calculate_radix (spine_ports leaf_uplink_ports : Int) : Option Int :=
  pyFloorDiv spine_ports leaf_uplink_ports

/-- calculate_nodes_per_leaf(leaf_bandwidth, node_bandwidth, uplink_bandwidth)
from the source: available_bandwidth = leaf_bandwidth - uplink_bandwidth,
then int(available_bandwidth // node_bandwidth).  On Python ints the final
int() conversion is the identity, so it is not modelled separately. -/
def calculate_nodes_per_leaf (leaf_bandwidth node_bandwidth uplink_bandwidth : Int) :
    Option Int :=
  pyFloorDiv (leaf_bandwidth - uplink_bandwidth) node_bandwidth

/-- One spine switch profile from the spine_configs dictionary. -/
structure SpineConfig where
  line_cards : Int
  ports_per_card : Int
  port_speed : Int
deriving Repr, DecidableEq

/-- One leaf switch profile from the leaf_configs dictionary. -/
structure LeafConfig where
  ports : Int
  port_speed : Int
  bandwidth : Int
deriving Repr, DecidableEq

/-- One row of the result DataFrame built inside main(). -/
structure ResultRow where
  leaf : String
  spine : String
  uplinks : Int
  workload_ports : Int
  oversubscription : String
  max_radix : Int
  nodes_per_leaf : Int
deriving Repr, DecidableEq

/-- spine_configs from main(); Python dicts preserve insertion order, so the
dictionary is modelled as an association list in declaration order. -/
def spine_configs : List (String × SpineConfig) :=
  [("7804", ⟨4, 36, 800⟩),
   ("7808", ⟨8, 36, 800⟩),
   ("7812", ⟨12, 36, 800⟩),
   ("7816", ⟨16, 36, 800⟩)]

/-- leaf_configs from main(), in declaration order. -/
def leaf_configs : List (String × LeafConfig) :=
  [("7060X5", ⟨64, 400, 25600⟩),
   ("7060X6", ⟨64, 800, 51200⟩)]

/-- node_bandwidth = 200 from main(). -/
def node_bandwidth : Int := 200

/-- leaf_uplink_ports = 8, assigned inside the leaf loop of main(); it is a
constant, independent of the loop iteration. -/
def leaf_uplink_ports : Int := 8

/-- The literal list of (oversubscription, uplink_divisor) pairs iterated by
the innermost loop of main(). -/
def oversubscription_ratios : List (String × Int) :=
  [("1:1", 1), ("2:1", 2), ("4:1", 4)]

/-- The body of the innermost loop of main() for one
(spine, leaf, ratio) triple, in source evaluation order:
uplinks = leaf_uplink_ports // divisor, then max_radix via calculate_radix,
then uplink_bandwidth = uplinks * spine port_speed, then nodes_per_leaf via
calculate_nodes_per_leaf, then the emitted row.  none models the loop body
raising an arithmetic exception. -/
def rowFor (node_bw : Int) (spine : String × SpineConfig) (leaf : String × LeafConfig)
    (ratio : String × Int) : Option ResultRow :=
  let spine_ports := spine.2.line_cards * spine.2.ports_per_card
  match pyFloorDiv leaf_uplink_ports ratio.2 with
  | none => none
  | some uplinks =>
    match calculate_radix spine_ports uplinks with
    | none => none
    | some max_radix =>
      let uplink_bandwidth := uplinks * spine.2.port_speed
      match calculate_nodes_per_leaf leaf.2.bandwidth node_bw uplink_bandwidth with
      | none => none
      | some npl =>
        some { leaf := leaf.1, spine := spine.1, uplinks := uplinks,
               workload_ports := leaf.2.ports - uplinks,
               oversubscription := ratio.1,
               max_radix := max_radix,
               nodes_per_leaf := npl }

/-- Sequencing of the row computations: the run aborts at the first raised
exception, exactly as the Python loop does. -/
def sequenceRows : List (Option ResultRow) → Option (List ResultRow)
  | [] => some []
  | none :: _ => none
  | some r :: rest =>
    match sequenceRows rest with
    | none => none
    | some rs => some (r :: rs)

/-- The nested loops of main(): spines outermost, then leaves, then ratios,
each in declaration order, appending one row per triple. -/
def enumerate (spines : List (String × SpineConfig)) (leaves : List (String × LeafConfig))
    (ratios : List (String × Int)) (node_bw : Int) : Option (List ResultRow) :=
  sequenceRows
    (spines.flatMap fun s => leaves.flatMap fun l => ratios.map fun r => rowFor node_bw s l r)

/-- The ordered row collection produced by one run of main() on the
reference catalog. -/
def main_rows : Option (List ResultRow) :=
  enumerate spine_configs leaf_configs oversubscription_ratios node_bandwidth

/-- The row main() emits for the triple (spine 7804, leaf 7060X5, ratio 1:1). -/
def row7804_7060X5_1to1 : ResultRow :=
  { leaf := "7060X5", spine := "7804", uplinks := 8, workload_ports := 56,
    oversubscription := "1:1", max_radix := 18, nodes_per_leaf := 96 }

/-- C1: enumerating the reference catalog (4 spine profiles, 2 leaf profiles,
3 ratios) succeeds and produces exactly 24 rows, ordered by nested iteration:
spine profiles in catalog-declaration order outermost, then leaf profiles in
declaration order, then ratios in declaration order, with no deduplication or
sorting. -/
theorem c1_enumeration_count_and_order :
    main_rows.isSome = true ∧
    (main_rows.getD []).length = 24 ∧
    (main_rows.getD []).map (fun r => (r.spine, r.leaf, r.oversubscription)) =
      [("7804", "7060X5", "1:1"), ("7804", "7060X5", "2:1"), ("7804", "7060X5", "4:1"),
       ("7804", "7060X6", "1:1"), ("7804", "7060X6", "2:1"), ("7804", "7060X6", "4:1"),
       ("7808", "7060X5", "1:1"), ("7808", "7060X5", "2:1"), ("7808", "7060X5", "4:1"),
       ("7808", "7060X6", "1:1"), ("7808", "7060X6", "2:1"), ("7808", "7060X6", "4:1"),
       ("7812", "7060X5", "1:1"), ("7812", "7060X5", "2:1"), ("7812", "7060X5", "4:1"),
       ("7812", "7060X6", "1:1"), ("7812", "7060X6", "2:1"), ("7812", "7060X6", "4:1"),
       ("7816", "7060X5", "1:1"), ("7816", "7060X5", "2:1"), ("7816", "7060X5", "4:1"),
       ("7816", "7060X6", "1:1"), ("7816", "7060X6", "2:1"), ("7816", "7060X6", "4:1")] := by
  decide

/-- C2: for the triple (spine 7804, leaf 7060X5, ratio 1:1) the loop body
produces uplinks = 8, uplink_bandwidth = 6400, max_radix = 18,
workload_ports = 56, nodes_per_leaf = 96, and that row is emitted by the
full run (it is in fact its first row). -/
theorem c2_end_to_end_example :
    rowFor node_bandwidth ("7804", ⟨4, 36, 800⟩) ("7060X5", ⟨64, 400, 25600⟩) ("1:1", 1) =
      some row7804_7060X5_1to1 ∧
    (main_rows.getD []).head? = some row7804_7060X5_1to1 := by
  decide

/-- Helper: on a nonnegative dividend and positive divisor, Python floor
division succeeds and agrees with natural-number floor division. -/
theorem pyFloorDiv_eq_natDiv (a b : Int) (ha : 0 ≤ a) (hb : 0 < b) :
    pyFloorDiv a b = some ((a.toNat / b.toNat : Nat) : Int) := by
  obtain ⟨m, rfl⟩ := Int.eq_ofNat_of_zero_le ha
  obtain ⟨n, rfl⟩ := Int.eq_ofNat_of_zero_le hb.le
  have hn : ¬ ((n : Int) = 0) := by omega
  simp only [pyFloorDiv, if_neg hn, Int.toNat_ofNat, Int.ofNat_fdiv]

/-- Helper: for a positive divisor, Python floor division succeeds and returns
the floor quotient (characterised by its bounds), which is negative whenever
the dividend is negative. -/
theorem pyFloorDiv_pos_divisor (a b : Int) (hb : 0 < b) :
    ∃ q : Int, pyFloorDiv a b = some q ∧ b * q ≤ a ∧ a < b * (q + 1) ∧ (a < 0 → q < 0) := by
  have hb0 : b ≠ 0 := by omega
  refine ⟨a / b, ?_, ?_, ?_, ?_⟩
  · simp only [pyFloorDiv, if_neg hb0, Int.fdiv_eq_ediv _ hb.le]
  · have h := Int.ediv_add_emod a b
    have h2 := Int.emod_nonneg a hb0
    linarith
  · have h := Int.ediv_add_emod a b
    have h3 := Int.emod_lt_of_pos a hb
    have h4 : b * (a / b + 1) = b * (a / b) + b := by ring
    linarith
  · intro hneg
    have := (Int.ediv_lt_iff_lt_mul hb).mpr (by simpa using hneg : a < 0 * b)
    simpa using this

/-- C3: for positive a and b, calculate_radix a b succeeds with the floor
division a // b (stated against independent natural-number division), and
calculate_radix a 0 is a ZeroDivisionError (none), never a coerced value. -/
theorem c3_radix_floor_division (a b : Int) (ha : 0 < a) (hb : 0 < b) :
    calculate_radix a b = some ((a.toNat / b.toNat : Nat) : Int) ∧
    calculate_radix a 0 = none :=
  ⟨pyFloorDiv_eq_natDiv a b ha.le hb, rfl⟩

/-- Witness for C3 at a = 144, b = 8. -/
theorem c3_witness :
    calculate_radix 144 8 = some (((144 : Int).toNat / (8 : Int).toNat : Nat) : Int) ∧
    calculate_radix 144 0 = none :=
  c3_radix_floor_division 144 8 (by decide) (by decide)

/-- C4: for U ≤ L and N > 0, calculate_nodes_per_leaf L N U succeeds with
floor ((L - U) / N), and in particular
calculate_nodes_per_leaf 25600 200 800 = 124. -/
theorem c4_nodes_per_leaf_floor (L N U : Int) (hLU : U ≤ L) (hN : 0 < N) :
    calculate_nodes_per_leaf L N U = some (((L - U).toNat / N.toNat : Nat) : Int) ∧
    calculate_nodes_per_leaf 25600 200 800 = some 124 :=
  ⟨pyFloorDiv_eq_natDiv (L - U) N (by omega) hN, by decide⟩

/-- Witness for C4 at L = 25600, N = 200, U = 800. -/
theorem c4_witness :
    calculate_nodes_per_leaf 25600 200 800 =
      some ((((25600 : Int) - 800).toNat / (200 : Int).toNat : Nat) : Int) ∧
    calculate_nodes_per_leaf 25600 200 800 = some 124 :=
  c4_nodes_per_leaf_floor 25600 200 800 (by decide) (by decide)

/-- C5 counterexample: at L = 25600, N = 200, U = 28800 (the input named by
the spec) the function returns the ordinary numeric value -16; it neither
raises an error (none) nor returns the documented sentinel 0, so the claimed
negative-availability policy does not hold in the code. -/
theorem c5_counterexample :
    calculate_nodes_per_leaf 25600 200 28800 = some (-16) ∧
    ¬ (calculate_nodes_per_leaf 25600 200 28800 = none ∨
       calculate_nodes_per_leaf 25600 200 28800 = some 0) := by
  decide

/-- C5 amended: for U > L and N > 0, calculate_nodes_per_leaf returns an
ordinary negative quotient; it never raises and never returns a 0 sentinel. -/
theorem c5_amended_negative_result (L N U : Int) (hUL : L < U) (hN : 0 < N) :
    ∃ q : Int, calculate_nodes_per_leaf L N U = some q ∧ q < 0 := by
  obtain ⟨q, hq, _, _, hneg⟩ := pyFloorDiv_pos_divisor (L - U) N hN
  exact ⟨q, hq, hneg (by omega)⟩

/-- Witness for the amended C5 at L = 25600, N = 200, U = 28800. -/
theorem c5_witness :
    ∃ q : Int, calculate_nodes_per_leaf 25600 200 28800 = some q ∧ q < 0 :=
  c5_amended_negative_result 25600 200 28800 (by decide) (by decide)

/-- C6: every row emitted from the reference catalog has uplinks at most the
base uplink port count 8, workload_ports equal to the port count of its leaf
profile minus its uplinks, and nonnegative workload_ports. -/
theorem c6_row_invariants :
    ∀ r ∈ main_rows.getD [], r.uplinks ≤ leaf_uplink_ports ∧
      0 ≤ r.workload_ports ∧
      ((leaf_configs.lookup r.leaf).map fun lc => lc.ports - r.uplinks) =
        some r.workload_ports := by
  decide

/-- Witness for C6 at the first emitted row. -/
theorem c6_witness :
    row7804_7060X5_1to1 ∈ main_rows.getD [] ∧
      (row7804_7060X5_1to1.uplinks ≤ leaf_uplink_ports ∧
       0 ≤ row7804_7060X5_1to1.workload_ports ∧
       ((leaf_configs.lookup row7804_7060X5_1to1.leaf).map
          fun lc => lc.ports - row7804_7060X5_1to1.uplinks) =
         some row7804_7060X5_1to1.workload_ports) :=
  ⟨by decide, c6_row_invariants row7804_7060X5_1to1 (by decide)⟩

/-- C7: the enumerator is a pure function of the catalogs, ratio list and
node bandwidth constant, so two runs on identical inputs produce identical
ordered output. -/
theorem c7_deterministic (spines : List (String × SpineConfig))
    (leaves : List (String × LeafConfig)) (ratios : List (String × Int)) (node_bw : Int) :
    enumerate spines leaves ratios node_bw = enumerate spines leaves ratios node_bw := rfl

/-- C8: for every N > 0 and all L, U, calculate_nodes_per_leaf totally
evaluates to the floor (toward negative infinity) of (L - U) / N, the unique
q with N * q ≤ L - U < N * (q + 1); when U > L this q is negative rather
than an error or a sentinel. -/
theorem c8_total_floor_toward_neg_infinity (L N U : Int) (hN : 0 < N) :
    ∃ q : Int, calculate_nodes_per_leaf L N U = some q ∧
      N * q ≤ L - U ∧ L - U < N * (q + 1) ∧ (L < U → q < 0) := by
  obtain ⟨q, hq, h1, h2, h3⟩ := pyFloorDiv_pos_divisor (L - U) N hN
  exact ⟨q, hq, h1, h2, fun h => h3 (by omega)⟩

/-- Witness for C8 at L = 25600, N = 200, U = 28800. -/
theorem c8_witness :
    ∃ q : Int, calculate_nodes_per_leaf 25600 200 28800 = some q ∧
      200 * q ≤ 25600 - 28800 ∧ (25600 : Int) - 28800 < 200 * (q + 1) ∧
      ((25600 : Int) < 28800 → q < 0) :=
  c8_total_floor_toward_neg_infinity 25600 200 28800 (by decide)

/-- C9: the full reference run completes without any arithmetic error (no
division by zero anywhere), and every emitted row has uplinks in the set
8, 4, 2 — in particular strictly positive. -/
theorem c9_uplinks_positive_no_error :
    main_rows.isSome = true ∧
    ∀ r ∈ main_rows.getD [],
      (r.uplinks = 8 ∨ r.uplinks = 4 ∨ r.uplinks = 2) ∧ 0 < r.uplinks := by
  decide

/-- Witness for C9 at the first emitted row. -/
theorem c9_witness :
    (row7804_7060X5_1to1.uplinks = 8 ∨ row7804_7060X5_1to1.uplinks = 4 ∨
      row7804_7060X5_1to1.uplinks = 2) ∧ 0 < row7804_7060X5_1to1.uplinks :=
  c9_uplinks_positive_no_error.2 row7804_7060X5_1to1 (by decide)

/-- C10: calculate_radix is antitone in its second argument: for a ≥ 0 and
0 < b1 ≤ b2, both divisions succeed and the quotient at b2 is at most the
quotient at b1. -/
theorem c10_radix_antitone_in_uplinks (a b1 b2 : Int) (ha : 0 ≤ a) (hb1 : 0 < b1)
    (hb : b1 ≤ b2) :
    ∃ q1 q2 : Int, calculate_radix a b1 = some q1 ∧ calculate_radix a b2 = some q2 ∧
      q2 ≤ q1 := by
  have hb2 : 0 < b2 := lt_of_lt_of_le hb1 hb
  refine ⟨a / b1, a / b2, ?_, ?_, ?_⟩
  · simp only [calculate_radix, pyFloorDiv, if_neg (by omega : ¬ b1 = 0),
      Int.fdiv_eq_ediv _ hb1.le]
  · simp only [calculate_radix, pyFloorDiv, if_neg (by omega : ¬ b2 = 0),
      Int.fdiv_eq_ediv _ hb2.le]
  · rw [Int.le_ediv_iff_mul_le hb1]
    have hq2 : 0 ≤ a / b2 := Int.ediv_nonneg ha hb2.le
    calc a / b2 * b1 ≤ a / b2 * b2 := mul_le_mul_of_nonneg_left hb hq2
      _ ≤ a := Int.ediv_mul_le a (by omega)

/-- Witness for C10 at a = 144, b1 = 2, b2 = 4. -/
theorem c10_witness :
    ∃ q1 q2 : Int, calculate_radix 144 2 = some q1 ∧ calculate_radix 144 4 = some q2 ∧
      q2 ≤ q1 :=
  c10_radix_antitone_in_uplinks 144 2 4 (by decide) (by decide) (by decide)
